import Mathlib

/-!
Verification development for the `pydocquery` embedded query language
(`queries.py`, `queries_compilation.py`).

The document/value model, the expression tree, the path resolver and the
compiler/evaluator are shallowly embedded below.  Python dictionaries are
modelled as association lists (`ValueDict`); Python's exception flow is
modelled with `Except PyErr`; the in-place mutation of
`MissingQueryTargetError.truth_value` performed by `negate` is modelled by
returning a copy with the flag flipped, which is observationally identical
in the single-threaded propagation of the source.
-/

mutual

/-- The value shape stored in a document: `None`, `bool`, `int`, `str`,
nested lists and nested string-keyed dictionaries.  Mirrors
`NestedPrimitive` / `Metadata` from `queries.py` (floats are not used by any
claim and are left out of the embedded universe). -/
inductive Value where
  | none : Value
  | bool (b : Bool) : Value
  | int (n : Int) : Value
  | str (s : String) : Value
  | list (l : ValueList) : Value
  | dict (d : ValueDict) : Value

inductive ValueList where
  | nil : ValueList
  | cons (v : Value) (tl : ValueList) : ValueList

inductive ValueDict where
  | nil : ValueDict
  | cons (k : String) (v : Value) (tl : ValueDict) : ValueDict

end

/-- `Metadata` = the document type: a string-keyed dictionary. -/
abbrev Metadata := ValueDict

def ValueList.isNil : ValueList → Bool
  | .nil => true
  | .cons _ _ => false

def ValueDict.isNil : ValueDict → Bool
  | .nil => true
  | .cons _ _ _ => false

/-- Dictionary lookup, `d[k]` for string keys (first binding wins; Python
dicts carry no duplicate keys). -/
def ValueDict.lookup : ValueDict → String → Option Value
  | .nil, _ => Option.none
  | .cons k v tl, key => if k == key then some v else tl.lookup key

def ValueList.any (p : Value → Bool) : ValueList → Bool
  | .nil => false
  | .cons v tl => p v || tl.any p

def ValueList.all (p : Value → Bool) : ValueList → Bool
  | .nil => true
  | .cons v tl => p v && tl.all p

def ValueList.length : ValueList → Nat
  | .nil => 0
  | .cons _ tl => tl.length + 1

def ValueDict.length : ValueDict → Nat
  | .nil => 0
  | .cons _ _ tl => tl.length + 1

def ValueList.append : ValueList → ValueList → ValueList
  | .nil, l => l
  | .cons v tl, l => .cons v (tl.append l)

/-- Python truthiness: `bool(v)`.  Empty containers, empty strings, zero,
`False` and `None` are falsy, everything else is truthy. -/
def Value.truthy : Value → Bool
  | .none => false
  | .bool b => b
  | .int n => n != 0
  | .str s => !s.isEmpty
  | .list l => !l.isNil
  | .dict d => !d.isNil

/-- Numeric view of a value: Python treats `bool` as an `int` in arithmetic
and comparisons (`True == 1`). -/
def Value.toNumQ : Value → Option Int
  | .bool b => some (if b then 1 else 0)
  | .int n => some n
  | _ => Option.none

/-- `MissingQueryTargetError` from `queries.py`: carries the missing path
prefix and a truth-value flag defaulting to `False`. -/
structure MissingQueryTargetError where
  missingpath : List String
  truth_value : Bool
deriving DecidableEq

/-- `negate`: flip the truth value (modelled functionally, see header). -/
def MissingQueryTargetError.negate (e : MissingQueryTargetError) : MissingQueryTargetError :=
  { e with truth_value := !e.truth_value }

/-- The exceptions the embedded code can raise.  `missingQueryTarget` is
`MissingQueryTargetError`; `invalidQueryUsage` is `InvalidQueryUsageError`;
`typeError`, `valueError`, `zeroDivisionError` and `notImplementedError`
model the corresponding host exceptions.  `floatResult` marks the
operations (`/`, negative powers) whose result would be a Python float,
which lies outside the embedded `Value` universe; no claim exercises them. -/
inductive PyErr where
  | missingQueryTarget (e : MissingQueryTargetError)
  | invalidQueryUsage
  | typeError
  | valueError
  | zeroDivisionError
  | notImplementedError
  | floatResult
deriving DecidableEq

mutual

/-- Python `==` on values: numeric cross-type equality between `bool` and
`int`, elementwise equality on lists, order-insensitive equality on dicts,
`False` across unrelated types. -/
def pyEq : Value → Value → Bool
  | .none, .none => true
  | .bool a, .bool b => a == b
  | .bool a, .int n => (if a then (1 : Int) else 0) == n
  | .int n, .bool b => n == (if b then (1 : Int) else 0)
  | .int a, .int b => a == b
  | .str a, .str b => a == b
  | .list a, .list b => pyEqList a b
  | .dict a, .dict b => a.length == b.length && pyEqDictIncl a b
  | _, _ => false

def pyEqList : ValueList → ValueList → Bool
  | .nil, .nil => true
  | .cons a as, .cons b bs => pyEq a b && pyEqList as bs
  | _, _ => false

def pyEqDictIncl : ValueDict → ValueDict → Bool
  | .nil, _ => true
  | .cons k v tl, other =>
    (match other.lookup k with
     | some w => pyEq v w
     | Option.none => false) && pyEqDictIncl tl other

end

mutual

/-- Python `<`: numeric pairs (bool counted as int), strings
lexicographically, lists lexicographically, everything else `TypeError`. -/
def pyLt : Value → Value → Except PyErr Bool
  | .list a, .list b => pyLtList a b
  | a, b =>
    match a.toNumQ, b.toNumQ with
    | some x, some y => .ok (decide (x < y))
    | _, _ =>
      match a, b with
      | .str s, .str t => .ok (decide (s < t))
      | _, _ => .error .typeError

def pyLtList : ValueList → ValueList → Except PyErr Bool
  | .nil, .nil => .ok false
  | .nil, .cons _ _ => .ok true
  | .cons _ _, .nil => .ok false
  | .cons x xs, .cons y ys => if pyEq x y then pyLtList xs ys else pyLt x y

def pyLe : Value → Value → Except PyErr Bool
  | .list a, .list b => pyLeList a b
  | a, b =>
    match a.toNumQ, b.toNumQ with
    | some x, some y => .ok (decide (x ≤ y))
    | _, _ =>
      match a, b with
      | .str s, .str t => .ok (decide (s ≤ t))
      | _, _ => .error .typeError

def pyLeList : ValueList → ValueList → Except PyErr Bool
  | .nil, _ => .ok true
  | .cons _ _, .nil => .ok false
  | .cons x xs, .cons y ys => if pyEq x y then pyLeList xs ys else pyLt x y

end

/-- String repetition `s * n` (Python semantics: non-positive `n` gives ""). -/
def strRepeat (s : String) (n : Int) : String :=
  String.join (List.replicate n.toNat s)

def ValueList.repeatN : ValueList → Nat → ValueList
  | _, 0 => .nil
  | l, Nat.succ k => l.append (l.repeatN k)

/-- Naive substring check on char lists (used to model Python's `in` on
strings and `re.search` for the literal patterns this development uses). -/
def charsHavePre : List Char → List Char → Bool
  | [], _ => true
  | _ :: _, [] => false
  | a :: as, b :: bs => a == b && charsHavePre as bs

def charsContain (needle : List Char) : List Char → Bool
  | [] => charsHavePre needle []
  | c :: rest => charsHavePre needle (c :: rest) || charsContain needle rest

def strContains (hay needle : String) : Bool :=
  charsContain needle.toList hay.toList

/-- Iterating a Python value: lists yield their elements, strings yield
their characters (as one-char strings), dicts yield their keys; anything
else raises `TypeError`. -/
def charsToValues : List Char → ValueList
  | [] => .nil
  | c :: rest => .cons (.str c.toString) (charsToValues rest)

def ValueDict.keyValues : ValueDict → ValueList
  | .nil => .nil
  | .cons k _ tl => .cons (.str k) tl.keyValues

def Value.iterElems : Value → Except PyErr ValueList
  | .list l => .ok l
  | .str s => .ok (charsToValues s.toList)
  | .dict d => .ok d.keyValues
  | _ => .error .typeError

/-- `OneSidedOperator` from `queries.py`. -/
inductive OneSidedOperator where
  | NEG
  | POS
  | NOT
deriving DecidableEq

/-- `TwoSidedOperator` from `queries.py`. -/
inductive TwoSidedOperator where
  | LT | LE | EQ | NE | GT | GE
  | ADD | SUB | MUL | MATMUL | TRUEDIV | FLOORDIV | MOD | POW
  | LSHIFT | RSHIFT
  | AND | OR
deriving DecidableEq

/-- `KnownFunction` from `queries.py`. -/
inductive KnownFunction where
  | EXISTS | IS_NONE | BINNOT | BINAND | BINOR | BINXOR
  | MATCHES | ANY | ALL | IS_IN
deriving DecidableEq

mutual

/-- The query expression tree.  `docElement` is `DocElementQuery` (a path
accessor), `oneSided` is `OneSidedOperation`, `twoSided` is
`TwoSidedOperation` and `functionQuery` is `FunctionQuery`. -/
inductive Query where
  | docElement (path : List String) : Query
  | oneSided (op : OneSidedOperator) (target : Operand) : Query
  | twoSided (op : TwoSidedOperator) (lhs rhs : Operand) : Query
  | functionQuery (f : KnownFunction) (args : FQArgList) : Query

/-- An operand of an operator or function: either a sub-query or a raw
constant (`Union[Query, Any]` in the source). -/
inductive Operand where
  | query (q : Query) : Operand
  | const (v : Value) : Operand

/-- One positional argument of a `FunctionQuery`: either a single
query-or-constant, or a Python list/tuple of sub-operands (the list shapes
taken by `ANY` and `ALL`). -/
inductive FQArg where
  | operand (a : Operand) : FQArg
  | opList (l : OperandList) : FQArg

inductive OperandList where
  | nil : OperandList
  | cons (a : Operand) (tl : OperandList) : OperandList

inductive FQArgList where
  | nil : FQArgList
  | cons (a : FQArg) (tl : FQArgList) : FQArgList

end

def OperandList.isNil : OperandList → Bool
  | .nil => true
  | .cons _ _ => false

/-- `SortingQuery` from `queries.py`: a query plus a sorting direction. -/
structure SortingQuery where
  query : Query
  is_ascending : Bool

def SortingQuery.is_descending (s : SortingQuery) : Bool :=
  !s.is_ascending

/-- `Asc` / `Desc` helpers from `queries.py`. -/
def Asc (q : Query) : SortingQuery := ⟨q, true⟩

def Desc (q : Query) : SortingQuery := ⟨q, false⟩

/-- What may be handed to `compile_query`: a `Query`, a top-level
`SortingQuery`, or a raw non-query object (rejected with `TypeError`
because `_compile` is called with `enforce_type=True`). -/
inductive TopQuery where
  | query (q : Query) : TopQuery
  | sorting (s : SortingQuery) : TopQuery
  | raw (v : Value) : TopQuery

/-- `resolve_element` from `queries.py`, generalized over the current value
and the already-resolved prefix `taken`: walk the segments left to right;
on a missing key (`KeyError`) or a non-dict intermediate value
(`TypeError`) raise `MissingQueryTargetError` carrying `path[0:i+1]`, i.e.
the resolved prefix plus the failing segment, with truth flag `False`. -/
def resolveFrom : Value → List String → List String → Except PyErr Value
  | v, [], _ => .ok v
  | .dict d, p :: rest, taken =>
    match d.lookup p with
    | some w => resolveFrom w rest (taken ++ [p])
    | Option.none => .error (.missingQueryTarget ⟨taken ++ [p], false⟩)
  | _, p :: _, taken => .error (.missingQueryTarget ⟨taken ++ [p], false⟩)

def resolve_element (path : List String) (meta : Metadata) : Except PyErr Value :=
  resolveFrom (.dict meta) path []

/-- Unary `-` (Python: bools are promoted to ints; otherwise `TypeError`). -/
def pyNeg (v : Value) : Except PyErr Value :=
  match v.toNumQ with
  | some x => .ok (.int (-x))
  | Option.none => .error .typeError

/-- Unary `+` (Python: `+True == 1`). -/
def pyPos (v : Value) : Except PyErr Value :=
  match v.toNumQ with
  | some x => .ok (.int x)
  | Option.none => .error .typeError

/-- Python `~` (bitwise complement): `~n = -n - 1`; bools are promoted. -/
def pyInvert (v : Value) : Except PyErr Value :=
  match v.toNumQ with
  | some x => .ok (.int (-x - 1))
  | Option.none => .error .typeError

/-- Python `&`: `bool & bool` stays a bool, numeric pairs use two's
complement bitwise and, anything else raises `TypeError`. -/
def pyBitAnd : Value → Value → Except PyErr Value
  | .bool a, .bool b => .ok (.bool (a && b))
  | a, b =>
    match a.toNumQ, b.toNumQ with
    | some x, some y => .ok (.int (Int.land x y))
    | _, _ => .error .typeError

def pyBitOr : Value → Value → Except PyErr Value
  | .bool a, .bool b => .ok (.bool (a || b))
  | a, b =>
    match a.toNumQ, b.toNumQ with
    | some x, some y => .ok (.int (Int.lor x y))
    | _, _ => .error .typeError

def pyBitXor : Value → Value → Except PyErr Value
  | .bool a, .bool b => .ok (.bool (a != b))
  | a, b =>
    match a.toNumQ, b.toNumQ with
    | some x, some y => .ok (.int (Int.xor x y))
    | _, _ => .error .typeError

/-- Python `item in container`: substring test on strings, elementwise
`==` on lists, key lookup on dicts (unhashable keys raise `TypeError`,
hashable non-string keys simply never match a string key), `TypeError` on
non-containers. -/
def pyContains (item container : Value) : Except PyErr Value :=
  match container with
  | .str s =>
    match item with
    | .str t => .ok (.bool (strContains s t))
    | _ => .error .typeError
  | .list l => .ok (.bool (l.any (fun e => pyEq e item)))
  | .dict d =>
    match item with
    | .str k =>
      .ok (.bool (match d.lookup k with | some _ => true | Option.none => false))
    | .list _ => .error .typeError
    | .dict _ => .error .typeError
    | _ => .ok (.bool false)
  | _ => .error .typeError

/-- The two-sided operators other than `AND`/`OR` (which short-circuit and
are implemented directly in the evaluator): the corresponding host
operation applied to two already-evaluated values, mirroring the
`compile_two_sided_operator` dispatch in `queries_compilation.py`. -/
def applyBinOp : TwoSidedOperator → Value → Value → Except PyErr Value
  | .LT, a, b => (pyLt a b).map Value.bool
  | .LE, a, b => (pyLe a b).map Value.bool
  | .EQ, a, b => .ok (.bool (pyEq a b))
  | .NE, a, b => .ok (.bool (!pyEq a b))
  | .GT, a, b => (pyLt b a).map Value.bool
  | .GE, a, b => (pyLe b a).map Value.bool
  | .ADD, .str s, .str t => .ok (.str (s ++ t))
  | .ADD, .list l, .list s => .ok (.list (l.append s))
  | .ADD, a, b =>
    match a.toNumQ, b.toNumQ with
    | some x, some y => .ok (.int (x + y))
    | _, _ => .error .typeError
  | .SUB, a, b =>
    match a.toNumQ, b.toNumQ with
    | some x, some y => .ok (.int (x - y))
    | _, _ => .error .typeError
  | .MUL, .str s, b =>
    match b.toNumQ with
    | some n => .ok (.str (strRepeat s n))
    | Option.none => .error .typeError
  | .MUL, a, .str s =>
    match a.toNumQ with
    | some n => .ok (.str (strRepeat s n))
    | Option.none => .error .typeError
  | .MUL, .list l, b =>
    match b.toNumQ with
    | some n => .ok (.list (l.repeatN n.toNat))
    | Option.none => .error .typeError
  | .MUL, a, .list l =>
    match a.toNumQ with
    | some n => .ok (.list (l.repeatN n.toNat))
    | Option.none => .error .typeError
  | .MUL, a, b =>
    match a.toNumQ, b.toNumQ with
    | some x, some y => .ok (.int (x * y))
    | _, _ => .error .typeError
  | .MATMUL, _, _ => .error .typeError
  | .TRUEDIV, a, b =>
    match a.toNumQ, b.toNumQ with
    | some _, some y =>
      if y == 0 then .error .zeroDivisionError else .error .floatResult
    | _, _ => .error .typeError
  | .FLOORDIV, a, b =>
    match a.toNumQ, b.toNumQ with
    | some x, some y =>
      if y == 0 then .error .zeroDivisionError else .ok (.int (Int.fdiv x y))
    | _, _ => .error .typeError
  | .MOD, a, b =>
    match a.toNumQ, b.toNumQ with
    | some x, some y =>
      if y == 0 then .error .zeroDivisionError else .ok (.int (Int.fmod x y))
    | _, _ => .error .typeError
  | .POW, a, b =>
    match a.toNumQ, b.toNumQ with
    | some x, some y =>
      if y < 0 then (if x == 0 then .error .zeroDivisionError else .error .floatResult)
      else .ok (.int (x ^ y.toNat))
    | _, _ => .error .typeError
  | .LSHIFT, a, b =>
    match a.toNumQ, b.toNumQ with
    | some x, some y =>
      if y < 0 then .error .valueError else .ok (.int (x * (2 : Int) ^ y.toNat))
    | _, _ => .error .typeError
  | .RSHIFT, a, b =>
    match a.toNumQ, b.toNumQ with
    | some x, some y =>
      if y < 0 then .error .valueError else .ok (.int (Int.fdiv x ((2 : Int) ^ y.toNat)))
    | _, _ => .error .typeError
  | .AND, _, _ => .error .notImplementedError
  | .OR, _, _ => .error .notImplementedError

mutual

/-- The compiled evaluator fused with its application to a document:
`evalQuery q m` is `_compile(q, enforce_type=False, catch_missing_exc=False)(m)`
from `queries_compilation.py`.  Per-node semantics follow
`compile_one_sided_operator`, `compile_two_sided_operator` and
`compile_known_function`. -/
def evalQuery : Query → Metadata → Except PyErr Value
  | .docElement path, m => resolve_element path m
  | .oneSided op t, m =>
    match op with
    | .NEG =>
      match evalOperand t m with
      | .ok v => pyNeg v
      | .error e => .error e
    | .POS =>
      match evalOperand t m with
      | .ok v => pyPos v
      | .error e => .error e
    | .NOT =>
      -- NOT catches MissingQueryTargetError, switches its truth value and re-raises;
      -- otherwise it returns the boolean negation of the operand's truthiness
      match evalOperand t m with
      | .ok v => .ok (.bool (!v.truthy))
      | .error (.missingQueryTarget e) => .error (.missingQueryTarget e.negate)
      | .error e => .error e
  | .twoSided op lhs rhs, m =>
    match op with
    | .AND =>
      -- boolean AND: falsy left value passes through unchanged; a left
      -- missing error re-raises when its truth value is False, otherwise
      -- evaluation proceeds to the right side
      match evalOperand lhs m with
      | .ok v => if v.truthy then evalOperand rhs m else .ok v
      | .error (.missingQueryTarget e) =>
        if e.truth_value then evalOperand rhs m else .error (.missingQueryTarget e)
      | .error e => .error e
    | .OR =>
      -- boolean OR: truthy left value passes through; a left missing error
      -- re-raises when negated (truthy), else the right side alone decides
      match evalOperand lhs m with
      | .ok v => if v.truthy then .ok v else evalOperand rhs m
      | .error (.missingQueryTarget e) =>
        if e.truth_value then .error (.missingQueryTarget e) else evalOperand rhs m
      | .error e => .error e
    | _ =>
      -- every other operator: evaluate left then right, apply the host
      -- operation, propagate errors from either side untouched
      match evalOperand lhs m with
      | .error e => .error e
      | .ok a =>
        match evalOperand rhs m with
        | .error e => .error e
        | .ok b => applyBinOp op a b
  | .functionQuery kf args, m =>
    match kf, args with
    | .EXISTS, .cons (.operand a) .nil =>
      match evalOperand a m with
      | .ok _ => .ok (.bool true)
      | .error (.missingQueryTarget _) => .ok (.bool false)
      | .error e => .error e
    | .IS_NONE, .cons (.operand a) .nil =>
      match evalOperand a m with
      | .ok v => .ok (.bool (match v with | .none => true | _ => false))
      | .error e => .error e
    | .BINNOT, .cons (.operand a) .nil =>
      match evalOperand a m with
      | .ok v => pyInvert v
      | .error e => .error e
    | .BINAND, .cons (.operand a) (.cons (.operand b) .nil) =>
      match evalOperand a m with
      | .error e => .error e
      | .ok x =>
        match evalOperand b m with
        | .error e => .error e
        | .ok y => pyBitAnd x y
    | .BINOR, .cons (.operand a) (.cons (.operand b) .nil) =>
      match evalOperand a m with
      | .error e => .error e
      | .ok x =>
        match evalOperand b m with
        | .error e => .error e
        | .ok y => pyBitOr x y
    | .BINXOR, .cons (.operand a) (.cons (.operand b) .nil) =>
      match evalOperand a m with
      | .error e => .error e
      | .ok x =>
        match evalOperand b m with
        | .error e => .error e
        | .ok y => pyBitXor x y
    | .MATCHES, .cons (.operand a) (.cons (.operand (.const (.str pat))) (.cons (.operand (.const (.int _))) .nil)) =>
      -- regex search on the target; a TypeError from a non-string target is
      -- caught and yields no-match (the development only exercises literal
      -- patterns, modelled as substring search, matching re.search on them)
      match evalOperand a m with
      | .ok (.str s) => .ok (.bool (strContains s pat))
      | .ok _ => .ok (.bool false)
      | .error e => .error e
    | .IS_IN, .cons (.operand it) (.cons (.operand cont) .nil) =>
      match evalOperand it m with
      | .error e => .error e
      | .ok i =>
        match evalOperand cont m with
        | .error e => .error e
        | .ok c => pyContains i c
    | .ANY, .cons (.operand (.query q)) .nil =>
      -- a single Query target expected to evaluate to an iterable
      match evalQuery q m with
      | .ok v =>
        match v.iterElems with
        | .ok l => .ok (.bool (l.any Value.truthy))
        | .error e => .error e
      | .error e => .error e
    | .ANY, .cons (.operand (.const v)) .nil =>
      -- a plain (non-Query) target is iterated at compile time; each element
      -- compiles to a constant evaluator which never raises, so the list
      -- loop reduces to plain any-of-truthiness (and the empty iterable
      -- compiles to a constant False)
      match v.iterElems with
      | .ok l => .ok (.bool (l.any Value.truthy))
      | .error e => .error e
    | .ANY, .cons (.opList items) .nil =>
      if items.isNil then .ok (.bool false) else evalAnyItems items true m
    | .ALL, .cons (.operand (.query q)) .nil =>
      match evalQuery q m with
      | .ok v =>
        match v.iterElems with
        | .ok l => .ok (.bool (l.all Value.truthy))
        | .error e => .error e
      | .error e => .error e
    | .ALL, .cons (.operand (.const v)) .nil =>
      -- as for ANY: a constant iterable of length 0 compiles to constant
      -- False, otherwise the loop over never-raising constant evaluators
      -- reduces to all-of-truthiness
      match v.iterElems with
      | .ok l => .ok (.bool (!l.isNil && l.all Value.truthy))
      | .error e => .error e
    | .ALL, .cons (.opList items) .nil =>
      if items.isNil then .ok (.bool false) else evalAllItems items true m
    | _, _ => .error .typeError

/-- The `ANY`-over-list evaluator from `compile_known_function`:
`allMissing` tracks whether every item so far raised a non-negated missing
error; the last item is handled specially. -/
def evalAnyItems : OperandList → Bool → Metadata → Except PyErr Value
  | .nil, _, _ => .ok (.bool false)
  | .cons a .nil, allMissing, m =>
    match evalOperand a m with
    | .ok v => .ok (.bool v.truthy)
    | .error (.missingQueryTarget e) =>
      if e.truth_value then .ok (.bool true)
      else if allMissing then .error (.missingQueryTarget e)
      else .ok (.bool false)
    | .error e => .error e
  | .cons a (.cons b rest), allMissing, m =>
    match evalOperand a m with
    | .ok v => if v.truthy then .ok (.bool true) else evalAnyItems (.cons b rest) false m
    | .error (.missingQueryTarget e) =>
      if e.truth_value then .ok (.bool true) else evalAnyItems (.cons b rest) allMissing m
    | .error e => .error e

/-- The `ALL`-over-list evaluator from `compile_known_function`:
`allNegMissing` tracks whether every item so far raised a negated missing
error; a non-negated missing propagates immediately. -/
def evalAllItems : OperandList → Bool → Metadata → Except PyErr Value
  | .nil, _, _ => .ok (.bool false)
  | .cons a .nil, allNegMissing, m =>
    match evalOperand a m with
    | .ok v => .ok (.bool v.truthy)
    | .error (.missingQueryTarget e) =>
      if !e.truth_value then .error (.missingQueryTarget e)
      else if allNegMissing then .error (.missingQueryTarget e)
      else .ok (.bool true)
    | .error e => .error e
  | .cons a (.cons b rest), allNegMissing, m =>
    match evalOperand a m with
    | .ok v => if !v.truthy then .ok (.bool false) else evalAllItems (.cons b rest) false m
    | .error (.missingQueryTarget e) =>
      if !e.truth_value then .error (.missingQueryTarget e)
      else evalAllItems (.cons b rest) allNegMissing m
    | .error e => .error e

/-- `_compile` on an operand: a non-`Query` object compiles to a constant
evaluator returning the object itself. -/
def evalOperand : Operand → Metadata → Except PyErr Value
  | .query q, m => evalQuery q m
  | .const v, _ => .ok v

end

/-- The result of a whole-query evaluation: a document value or one of the
two singletons `MISSING` / `NEGATED_MISSING` from `queries.py`. -/
inductive QueryResult where
  | value (v : Value) : QueryResult
  | MISSING : QueryResult
  | NEGATED_MISSING : QueryResult

/-- `MissingQueryTargetError.to_object`: convert the exception into the
singleton matching its truth value. -/
def MissingQueryTargetError.to_object (e : MissingQueryTargetError) : QueryResult :=
  if e.truth_value then .NEGATED_MISSING else .MISSING

/-- The catching wrapper produced by `_compile(q, catch_missing_exc=True)`:
a propagated `MissingQueryTargetError` converts to a sentinel at this
single exit point; every other exception surfaces to the caller. -/
def evaluateCaught (q : Query) (m : Metadata) : Except PyErr QueryResult :=
  match evalQuery q m with
  | .ok v => .ok (.value v)
  | .error (.missingQueryTarget e) => .ok e.to_object
  | .error e => .error e

/-- `compile_query` fused with application to a document: a top-level
`SortingQuery` is unwrapped to its inner query (the direction flag is not
consulted); a raw non-query object is rejected with `TypeError` because
`_compile` is entered with `enforce_type=True`. -/
def compile_query : TopQuery → Metadata → Except PyErr QueryResult
  | .sorting s, m => evaluateCaught s.query m
  | .query q, m => evaluateCaught q m
  | .raw _, _ => .error .typeError

/-- `evaluate_query(q, metadata) = compile_query(q)(metadata)`. -/
def evaluate_query (q : Query) (m : Metadata) : Except PyErr QueryResult :=
  compile_query (.query q) m

/-- `DocElementAccessor.__getattr__`: a child accessor whose path has one
more segment; the original accessor is not mutated. -/
def DocElementAccessor.getattr (path : List String) (item : String) : List String :=
  path ++ [item]

/-- `Query.__bool__`: unconditionally raises `InvalidQueryUsageError`. -/
def Query.boolDunder (_q : Query) : Except PyErr Bool :=
  .error .invalidQueryUsage

/-- `Query.__hash__`: unconditionally raises `InvalidQueryUsageError`. -/
def Query.hashDunder (_q : Query) : Except PyErr Int :=
  .error .invalidQueryUsage

/-- `Query.__getitem__` — inherited unchanged by `DocElementQuery`, whose
own item accessor is commented out in the source — unconditionally raises
`InvalidQueryUsageError`. -/
def Query.getitemDunder (_q : Query) (_item : Value) : Except PyErr Query :=
  .error .invalidQueryUsage

/-- `Query.__xor__`: the boolean xor operator is deliberately unsupported
and raises `InvalidQueryUsageError`. -/
def Query.xorDunder (_q : Query) (_rhs : Operand) : Except PyErr Query :=
  .error .invalidQueryUsage

/-- `Query.__rxor__`: same as `__xor__`. -/
def Query.rxorDunder (_q : Query) (_lhs : Operand) : Except PyErr Query :=
  .error .invalidQueryUsage

/-- A multi-term chained comparison `x o1 y o2 z`: the host desugars it to
`(x o1 y) and (y o2 z)`, which truth-tests the first comparison query via
`__bool__`. -/
def chainedComparison (x : Query) (o1 : TwoSidedOperator) (y : Operand)
    (o2 : TwoSidedOperator) (z : Operand) : Except PyErr Operand :=
  match Query.boolDunder (.twoSided o1 (.query x) y) with
  | .error e => .error e
  | .ok b =>
    if b then .ok (.query (.twoSided o2 y z))
    else .ok (.query (.twoSided o1 (.query x) y))

/-- Python `path.split(".")` (always returns at least one piece). -/
def splitDotsAux : List Char → List Char → List String
  | [], acc => [String.mk acc.reverse]
  | c :: rest, acc =>
    if c == '.' then String.mk acc.reverse :: splitDotsAux rest []
    else splitDotsAux rest (c :: acc)

def splitDots (s : String) : List String :=
  splitDotsAux s.toList []

/-- `query_base` from `queries.py`: start from the root accessor and, when
a path is given, run `res = res[item]` for each '.'-separated item.  Item
access on the accessor dispatches to the inherited `Query.__getitem__`. -/
def query_base (path : Option String) : Except PyErr Query :=
  match path with
  | Option.none => .ok (.docElement [])
  | some p =>
    (splitDots p).foldlM (fun cur item => Query.getitemDunder cur (.str item)) (.docElement [])

/-- The host `hash` of a raw constant.  `None`, `bool`, `int` and `str`
are hashable; the language guarantees equal hashes for `==`-equal numbers,
so a `bool` hashes as its numeric value (`hash(True) == hash(1)`,
`hash(False) == hash(0)`).  Incidental collisions between `==`-distinct
values are abstracted away. -/
inductive ConstHash where
  | noneH : ConstHash
  | intH (n : Int) : ConstHash
  | strH (s : String) : ConstHash
deriving DecidableEq

/-- Host `hash(v)` on a raw constant: lists and dicts are unhashable and
raise `TypeError`. -/
def Value.pyHash : Value → Except PyErr ConstHash
  | .none => .ok .noneH
  | .bool b => .ok (.intH (if b then 1 else 0))
  | .int n => .ok (.intH n)
  | .str s => .ok (.strH s)
  | .list _ => .error .typeError
  | .dict _ => .error .typeError

/-- Whether host `hash(v)` succeeds on a raw constant. -/
def Value.hashable : Value → Bool
  | .list _ => false
  | .dict _ => false
  | _ => true

/-- The canonical structural hash computed by `hash_query`: the tuples the
source passes to the host `hash` are modelled as constructor applications
and nested hashes as sub-trees (distinct tuples have distinct hashes in
the model; guaranteed numeric collisions live inside `ConstHash`, other
host-level collisions are abstracted away). -/
inductive QueryHash where
  | const (h : ConstHash) : QueryHash
  | oneOp (op : OneSidedOperator) : QueryHash
  | twoOp (op : TwoSidedOperator) : QueryHash
  | oneSided (op : QueryHash) (target : QueryHash) : QueryHash
  | twoSided (op : QueryHash) (lhs rhs : QueryHash) : QueryHash
  | docElem (path : List String) : QueryHash

/-- `hash_query` from `queries.py`: operations hash as the tuple of their
class, operator hash and operand hashes; a `DocElementQuery` hashes by its
segment sequence; a non-`Query` constant hashes by the host `hash(q)`,
which raises `TypeError` on unhashable list/dict constants; any other
`Query` subclass — in particular every `FunctionQuery` — falls through to
`raise NotImplementedError(type(q))`. -/
def hash_query : Operand → Except PyErr QueryHash
  | .const v =>
    match v.pyHash with
    | .ok h => .ok (.const h)
    | .error e => .error e
  | .query (.oneSided op t) =>
    match hash_query t with
    | .ok ht => .ok (.oneSided (.oneOp op) ht)
    | .error e => .error e
  | .query (.twoSided op l r) =>
    match hash_query l with
    | .error e => .error e
    | .ok hl =>
      match hash_query r with
      | .error e => .error e
      | .ok hr => .ok (.twoSided (.twoOp op) hl hr)
  | .query (.docElement p) => .ok (.docElem p)
  | .query (.functionQuery _ _) => .error .notImplementedError

def QueryHash.beq : QueryHash → QueryHash → Bool
  | .const a, .const b => a == b
  | .oneOp a, .oneOp b => a == b
  | .twoOp a, .twoOp b => a == b
  | .oneSided a t, .oneSided b u => QueryHash.beq a b && QueryHash.beq t u
  | .twoSided a l r, .twoSided b l2 r2 =>
    QueryHash.beq a b && QueryHash.beq l l2 && QueryHash.beq r r2
  | .docElem p, .docElem q => p == q
  | _, _ => false

/-- `is_same_query`: equality of the two canonical hashes.  The left hash
is computed first, so its exception propagates before the right hash is
attempted. -/
def is_same_query (q1 q2 : Query) : Except PyErr Bool :=
  match hash_query (.query q1) with
  | .error e => .error e
  | .ok h1 =>
    match hash_query (.query q2) with
    | .error e => .error e
    | .ok h2 => .ok (QueryHash.beq h1 h2)

mutual

/-- Queries containing no `FunctionQuery` node and no unhashable (list or
dict) constant: the domain on which `hash_query` is total. -/
def Query.hashableQ : Query → Bool
  | .docElement _ => true
  | .oneSided _ t => t.hashableQ
  | .twoSided _ l r => l.hashableQ && r.hashableQ
  | .functionQuery _ _ => false

def Operand.hashableQ : Operand → Bool
  | .query q => q.hashableQ
  | .const v => v.hashable

end

/-- Specification-side containment, stated from the spec's words: follow
the accessor's segments inside a value and return the nested value exactly
when the document contains the full path.  Used to compare
`resolve_element` against the claimed contract. -/
def getPath : Value → List String → Option Value
  | v, [] => some v
  | .dict d, p :: rest =>
    match d.lookup p with
    | some w => getPath w rest
    | Option.none => Option.none
  | _, _ :: _ => Option.none

theorem queryHash_beq_refl : (h : QueryHash) → QueryHash.beq h h = true
  | .const a => by simp [QueryHash.beq]
  | .oneOp op => by simp [QueryHash.beq]
  | .twoOp op => by simp [QueryHash.beq]
  | .oneSided a t => by simp [QueryHash.beq, queryHash_beq_refl a, queryHash_beq_refl t]
  | .twoSided a l r => by
    simp [QueryHash.beq, queryHash_beq_refl a, queryHash_beq_refl l, queryHash_beq_refl r]
  | .docElem p => by simp [QueryHash.beq]

mutual

theorem query_hash_total : (q : Query) → q.hashableQ = true → ∃ h, hash_query (.query q) = .ok h
  | .docElement p, _ => ⟨.docElem p, rfl⟩
  | .oneSided op t, hf => by
    obtain ⟨ht, e⟩ := operand_hash_total t (by simpa [Query.hashableQ] using hf)
    exact ⟨.oneSided (.oneOp op) ht, by simp [hash_query, e]⟩
  | .twoSided op l r, hf => by
    have hf' : l.hashableQ = true ∧ r.hashableQ = true := by
      simpa [Query.hashableQ, Bool.and_eq_true] using hf
    obtain ⟨hl, el⟩ := operand_hash_total l hf'.1
    obtain ⟨hr, er⟩ := operand_hash_total r hf'.2
    exact ⟨.twoSided (.twoOp op) hl hr, by simp [hash_query, el, er]⟩
  | .functionQuery f a, hf => by simp [Query.hashableQ] at hf

theorem operand_hash_total : (a : Operand) → a.hashableQ = true → ∃ h, hash_query a = .ok h
  | .const v, hv => by
    cases v with
    | none => exact ⟨.const .noneH, rfl⟩
    | bool b => exact ⟨.const (.intH (if b then 1 else 0)), rfl⟩
    | int n => exact ⟨.const (.intH n), rfl⟩
    | str s => exact ⟨.const (.strH s), rfl⟩
    | list l => simp [Operand.hashableQ, Value.hashable] at hv
    | dict d => simp [Operand.hashableQ, Value.hashable] at hv
  | .query q, hf => query_hash_total q (by simpa [Operand.hashableQ] using hf)

end

theorem resolveFrom_spec : ∀ (path : List String) (v : Value) (taken : List String),
    (∀ r, getPath v path = some r → resolveFrom v path taken = .ok r) ∧
    (getPath v path = Option.none →
      ∃ pre, pre ≠ [] ∧ (∃ rest2, pre ++ rest2 = path) ∧
        resolveFrom v path taken = .error (.missingQueryTarget ⟨taken ++ pre, false⟩) ∧
        (∃ w, getPath v pre.dropLast = some w) ∧ getPath v pre = Option.none)
  | [], v, taken => by
    constructor
    · intro r hr
      simp only [getPath, Option.some.injEq] at hr
      simp [resolveFrom, hr]
    · intro h
      simp [getPath] at h
  | p :: rest, v, taken => by
    constructor
    · intro r hr
      cases v with
      | dict d =>
        cases hl : d.lookup p with
        | some w =>
          have hr' : getPath w rest = some r := by
            simpa [getPath, hl] using hr
          simpa [resolveFrom, hl] using (resolveFrom_spec rest w (taken ++ [p])).1 r hr'
        | none => simp [getPath, hl] at hr
      | none => simp [getPath] at hr
      | bool b => simp [getPath] at hr
      | int n => simp [getPath] at hr
      | str s => simp [getPath] at hr
      | list l => simp [getPath] at hr
    · intro h
      cases v with
      | dict d =>
        cases hl : d.lookup p with
        | some w =>
          have h' : getPath w rest = Option.none := by
            simpa [getPath, hl] using h
          obtain ⟨pre, hne, ⟨rest2, hcat⟩, hres, ⟨w2, hdl⟩, hnone⟩ :=
            (resolveFrom_spec rest w (taken ++ [p])).2 h'
          obtain ⟨q, pre', rfl⟩ : ∃ q pre', pre = q :: pre' := by
            cases pre with
            | nil => exact absurd rfl hne
            | cons q pre' => exact ⟨q, pre', rfl⟩
          refine ⟨p :: q :: pre', by simp, ⟨rest2, by simp [hcat]⟩, ?_, ?_, ?_⟩
          · have : taken ++ [p] ++ (q :: pre') = taken ++ (p :: q :: pre') := by simp
            rw [resolveFrom, hl]
            simpa [this] using hres
          · exact ⟨w2, by simpa [List.dropLast, getPath, hl] using hdl⟩
          · simpa [getPath, hl] using hnone
        | none =>
          refine ⟨[p], by simp, ⟨rest, rfl⟩, ?_, ⟨.dict d, rfl⟩, ?_⟩
          · simp [resolveFrom, hl]
          · simp [getPath, hl]
      | none =>
        exact ⟨[p], by simp, ⟨rest, rfl⟩, by simp [resolveFrom], ⟨.none, rfl⟩, by simp [getPath]⟩
      | bool b =>
        exact ⟨[p], by simp, ⟨rest, rfl⟩, by simp [resolveFrom], ⟨.bool b, rfl⟩, by simp [getPath]⟩
      | int n =>
        exact ⟨[p], by simp, ⟨rest, rfl⟩, by simp [resolveFrom], ⟨.int n, rfl⟩, by simp [getPath]⟩
      | str s =>
        exact ⟨[p], by simp, ⟨rest, rfl⟩, by simp [resolveFrom], ⟨.str s, rfl⟩, by simp [getPath]⟩
      | list l =>
        exact ⟨[p], by simp, ⟨rest, rfl⟩, by simp [resolveFrom], ⟨.list l, rfl⟩, by simp [getPath]⟩

/-- C1: `NOT` of an operand that raises `MissingQueryTargetError` toggles
the error's truth flag and re-raises it (no boolean math); `NOT` of a
normally-evaluating operand returns the negation of its truthiness; for any
document in which path `x` is absent, `NOT x` evaluates to
`NEGATED_MISSING` and `NOT (NOT x)` back to `MISSING`; and at top level a
propagated missing error converts through `to_object`, flag `False` giving
`MISSING` and flag `True` giving `NEGATED_MISSING`. -/
theorem not_toggles_missing (t : Operand) (m : Metadata) :
    (∀ e, evalOperand t m = .error (.missingQueryTarget e) →
      evalQuery (.oneSided .NOT t) m = .error (.missingQueryTarget e.negate)) ∧
    (∀ v, evalOperand t m = .ok v →
      evalQuery (.oneSided .NOT t) m = .ok (.bool (!v.truthy))) ∧
    (∀ (doc : Metadata) (x : String), doc.lookup x = Option.none →
      evaluate_query (.oneSided .NOT (.query (.docElement [x]))) doc = .ok .NEGATED_MISSING ∧
      evaluate_query (.oneSided .NOT (.query (.oneSided .NOT (.query (.docElement [x]))))) doc
        = .ok .MISSING) ∧
    (∀ (q : Query) (e : MissingQueryTargetError),
      evalQuery q m = .error (.missingQueryTarget e) →
      evaluate_query q m = .ok e.to_object) ∧
    (∀ e : MissingQueryTargetError,
      e.to_object = if e.truth_value then QueryResult.NEGATED_MISSING else QueryResult.MISSING) := by
  refine ⟨?_, ?_, ?_, ?_, fun e => rfl⟩
  · intro e h
    simp [evalQuery, h]
  · intro v h
    simp [evalQuery, h]
  · intro doc x hx
    constructor
    · simp [evaluate_query, compile_query, evaluateCaught, evalQuery, evalOperand,
        resolve_element, resolveFrom, hx, MissingQueryTargetError.negate,
        MissingQueryTargetError.to_object]
    · simp [evaluate_query, compile_query, evaluateCaught, evalQuery, evalOperand,
        resolve_element, resolveFrom, hx, MissingQueryTargetError.negate,
        MissingQueryTargetError.to_object]
  · intro q e h
    simp [evaluate_query, compile_query, evaluateCaught, h]

theorem not_toggles_missing_witness :
    evalQuery (.oneSided .NOT (.query (.docElement ["x"]))) .nil
      = .error (.missingQueryTarget (MissingQueryTargetError.negate ⟨["x"], false⟩)) ∧
    evaluate_query (.oneSided .NOT (.query (.docElement ["x"]))) .nil = .ok .NEGATED_MISSING ∧
    evaluate_query (.oneSided .NOT (.query (.oneSided .NOT (.query (.docElement ["x"]))))) .nil
      = .ok .MISSING :=
  ⟨(not_toggles_missing (.query (.docElement ["x"])) .nil).1 ⟨["x"], false⟩ rfl,
   ((not_toggles_missing (.query (.docElement ["x"])) .nil).2.2.1 .nil "x" rfl).1,
   ((not_toggles_missing (.query (.docElement ["x"])) .nil).2.2.1 .nil "x" rfl).2⟩

/-- C2: `AND` evaluates its left side first.  A left missing error with
truth flag `True` hands over to the right side; with flag `False` it is
re-raised without touching the right side.  A falsy left value passes
through unchanged (right side untouched); a truthy left value yields the
right side's value or error.  In particular
`AND(Constant(False), root_accessor("missing"))` evaluates to `False` on
the empty document. -/
theorem and_semantics (lhs rhs : Operand) (m : Metadata) :
    (∀ e, evalOperand lhs m = .error (.missingQueryTarget e) →
      evalQuery (.twoSided .AND lhs rhs) m =
        (if e.truth_value then evalOperand rhs m else .error (.missingQueryTarget e))) ∧
    (∀ v, evalOperand lhs m = .ok v →
      evalQuery (.twoSided .AND lhs rhs) m =
        (if v.truthy then evalOperand rhs m else .ok v)) ∧
    evaluate_query (.twoSided .AND (.const (.bool false)) (.query (.docElement ["missing"]))) .nil
      = .ok (.value (.bool false)) := by
  refine ⟨?_, ?_, rfl⟩
  · intro e h
    simp [evalQuery, h]
  · intro v h
    simp [evalQuery, h]

theorem and_semantics_witness :
    evalQuery (.twoSided .AND (.query (.docElement ["missing"])) (.const (.bool true))) .nil
      = .error (.missingQueryTarget ⟨["missing"], false⟩) ∧
    evalQuery (.twoSided .AND (.const (.bool true)) (.const (.int 25))) .nil = .ok (.int 25) := by
  constructor
  · simpa using
      (and_semantics (.query (.docElement ["missing"])) (.const (.bool true)) .nil).1
        ⟨["missing"], false⟩ rfl
  · simpa using
      (and_semantics (.const (.bool true)) (.const (.int 25)) .nil).2.1 (.bool true) rfl

/-- C3: `OR` evaluates its left side first.  A left missing error with
truth flag `True` is re-raised without touching the right side; with flag
`False` the right side alone decides (its value is returned, its error
propagates).  A truthy left value passes through unchanged (right side
untouched); a falsy left value yields the right side's value or error.  In
particular `OR(root_accessor("d"), root_accessor("missing"))` evaluates to
"hello" on a document carrying `d = "hello"`. -/
theorem or_semantics (lhs rhs : Operand) (m : Metadata) :
    (∀ e, evalOperand lhs m = .error (.missingQueryTarget e) →
      evalQuery (.twoSided .OR lhs rhs) m =
        (if e.truth_value then .error (.missingQueryTarget e) else evalOperand rhs m)) ∧
    (∀ v, evalOperand lhs m = .ok v →
      evalQuery (.twoSided .OR lhs rhs) m = (if v.truthy then .ok v else evalOperand rhs m)) ∧
    evaluate_query (.twoSided .OR (.query (.docElement ["d"])) (.query (.docElement ["missing"])))
      (.cons "d" (.str "hello") .nil) = .ok (.value (.str "hello")) := by
  refine ⟨?_, ?_, rfl⟩
  · intro e h
    simp [evalQuery, h]
  · intro v h
    simp [evalQuery, h]

theorem or_semantics_witness :
    evalQuery (.twoSided .OR (.query (.docElement ["missing"])) (.const (.bool true))) .nil
      = .ok (.bool true) ∧
    evalQuery (.twoSided .OR (.const (.str "hello")) (.query (.docElement ["missing"]))) .nil
      = .ok (.str "hello") := by
  constructor
  · simpa using
      (or_semantics (.query (.docElement ["missing"])) (.const (.bool true)) .nil).1
        ⟨["missing"], false⟩ rfl
  · simpa using
      (or_semantics (.const (.str "hello")) (.query (.docElement ["missing"])) .nil).2.1
        (.str "hello") rfl

/-- C4: resolving an accessor against a document containing the full path
returns the exact nested value; otherwise resolution fails with
`MissingQueryTargetError` whose recorded prefix is the shortest unresolved
prefix of the accessor — one segment past the longest resolved prefix,
failing as soon as a key is absent or a non-dict value is reached with
segments remaining — and the empty accessor resolves to the whole
document. -/
theorem resolve_element_contract (path : List String) (meta : Metadata) :
    resolve_element [] meta = .ok (.dict meta) ∧
    (∀ r, getPath (.dict meta) path = some r → resolve_element path meta = .ok r) ∧
    (getPath (.dict meta) path = Option.none →
      ∃ pre, pre ≠ [] ∧ (∃ rest2, pre ++ rest2 = path) ∧
        resolve_element path meta = .error (.missingQueryTarget ⟨pre, false⟩) ∧
        (∃ w, getPath (.dict meta) pre.dropLast = some w) ∧
        getPath (.dict meta) pre = Option.none) := by
  refine ⟨rfl, ?_, ?_⟩
  · intro r hr
    exact (resolveFrom_spec path (.dict meta) []).1 r hr
  · intro h
    obtain ⟨pre, h1, h2, h3, h4, h5⟩ := (resolveFrom_spec path (.dict meta) []).2 h
    exact ⟨pre, h1, h2, by simpa using h3, h4, h5⟩

theorem resolve_element_contract_witness :
    resolve_element ["a", "b"] (.cons "a" (.dict (.cons "b" (.int 1) .nil)) .nil)
      = .ok (.int 1) ∧
    (∃ pre, pre ≠ [] ∧ (∃ rest2, pre ++ rest2 = ["a"]) ∧
      resolve_element ["a"] .nil = .error (.missingQueryTarget ⟨pre, false⟩) ∧
      (∃ w, getPath (.dict .nil) pre.dropLast = some w) ∧
      getPath (.dict .nil) pre = Option.none) :=
  ⟨(resolve_element_contract ["a", "b"] (.cons "a" (.dict (.cons "b" (.int 1) .nil)) .nil)).2.1
      (.int 1) rfl,
   (resolve_element_contract ["a"] .nil).2.2 rfl⟩

/-- C5 counterexample: `ALL` in its single-expression form applied to an
expression that evaluates to an empty iterable returns `True` — the host
`all` of an empty iterable — and not `false` as claimed. -/
theorem all_empty_iterable_counterexample :
    evaluate_query (.functionQuery .ALL (.cons (.operand (.query (.docElement ["items"]))) .nil))
      (.cons "items" (.list .nil) .nil) = .ok (.value (.bool true)) ∧
    evaluate_query (.functionQuery .ALL (.cons (.operand (.query (.docElement ["items"]))) .nil))
      (.cons "items" (.list .nil) .nil) ≠ .ok (.value (.bool false)) := by
  have h : evaluate_query
      (.functionQuery .ALL (.cons (.operand (.query (.docElement ["items"]))) .nil))
      (.cons "items" (.list .nil) .nil) = .ok (.value (.bool true)) := rfl
  refine ⟨h, ?_⟩
  rw [h]
  simp

/-- C5 (amended): `ALL` over an empty list of sub-expressions compiles to a
constant-false evaluator; `ALL` in its single-expression form over an
expression evaluating to an iterable returns true iff all its elements are
truthy — hence true (not false) on an empty iterable, following the host
`all`. -/
theorem all_semantics_amended (m : Metadata) (q : Query) (l : ValueList) :
    evalQuery (.functionQuery .ALL (.cons (.opList .nil) .nil)) m = .ok (.bool false) ∧
    (evalQuery q m = .ok (.list l) →
      evalQuery (.functionQuery .ALL (.cons (.operand (.query q)) .nil)) m
        = .ok (.bool (l.all Value.truthy))) := by
  refine ⟨rfl, ?_⟩
  intro h
  simp [evalQuery, h, Value.iterElems]

theorem all_semantics_amended_witness :
    evalQuery (.functionQuery .ALL (.cons (.operand (.query (.docElement ["items"]))) .nil))
      (.cons "items" (.list .nil) .nil) = .ok (.bool true) :=
  (all_semantics_amended (.cons "items" (.list .nil) .nil) (.docElement ["items"]) .nil).2 rfl

/-- C6 (code bug): `query_base` with a dotted path raises
`InvalidQueryUsageError`, because each step runs `res = res[item]` and
`DocElementQuery` inherits `Query.__getitem__`, which unconditionally
raises (the accessor's own item accessor is commented out) — although the
path-less call succeeds, chained attribute navigation builds the accessor
`["a", "b"]`, and evaluating that accessor behaves exactly as claimed:
`1` on a document containing `a.b` and `MISSING` on the empty document. -/
theorem query_base_path_raises :
    query_base (some "a.b") = .error .invalidQueryUsage ∧
    query_base Option.none = .ok (.docElement []) ∧
    DocElementAccessor.getattr (DocElementAccessor.getattr [] "a") "b" = ["a", "b"] ∧
    evaluate_query (.docElement ["a", "b"]) (.cons "a" (.dict (.cons "b" (.int 1) .nil)) .nil)
      = .ok (.value (.int 1)) ∧
    evaluate_query (.docElement ["a", "b"]) .nil = .ok .MISSING :=
  ⟨rfl, rfl, rfl, rfl, rfl⟩

/-- C7: `ANY` over a non-empty list of sub-expressions evaluates the items
left to right; any truthy value or negated (flag-`True`) missing error
returns true immediately; a falsy value is skipped and resets the
all-missing tracker; a flag-`False` missing error is skipped preserving the
tracker; on the final item a falsy value gives false, and a flag-`False`
missing error is re-raised exactly when every prior item was missing too,
otherwise false is returned.  In particular `ANY` over two missing
accessors evaluates to `MISSING`, while one real falsy item among missing
ones yields `false`. -/
theorem any_list_semantics (a : Operand) (rest items : OperandList) (fl : Bool) (m : Metadata) :
    (items.isNil = false →
      evalQuery (.functionQuery .ANY (.cons (.opList items) .nil)) m = evalAnyItems items true m) ∧
    (∀ v, evalOperand a m = .ok v → v.truthy = true →
      evalAnyItems (.cons a rest) fl m = .ok (.bool true)) ∧
    (∀ e, evalOperand a m = .error (.missingQueryTarget e) → e.truth_value = true →
      evalAnyItems (.cons a rest) fl m = .ok (.bool true)) ∧
    (∀ v b tl, rest = .cons b tl → evalOperand a m = .ok v → v.truthy = false →
      evalAnyItems (.cons a rest) fl m = evalAnyItems rest false m) ∧
    (∀ e b tl, rest = .cons b tl → evalOperand a m = .error (.missingQueryTarget e) →
      e.truth_value = false →
      evalAnyItems (.cons a rest) fl m = evalAnyItems rest fl m) ∧
    (∀ v, evalOperand a m = .ok v → v.truthy = false →
      evalAnyItems (.cons a .nil) fl m = .ok (.bool false)) ∧
    (∀ e, evalOperand a m = .error (.missingQueryTarget e) → e.truth_value = false →
      evalAnyItems (.cons a .nil) fl m =
        (if fl then .error (.missingQueryTarget e) else .ok (.bool false))) ∧
    evaluate_query (.functionQuery .ANY (.cons (.opList
        (.cons (.query (.docElement ["m1"])) (.cons (.query (.docElement ["m2"])) .nil))) .nil))
      .nil = .ok .MISSING ∧
    evaluate_query (.functionQuery .ANY (.cons (.opList
        (.cons (.query (.docElement ["m1"]))
          (.cons (.const (.bool false)) (.cons (.query (.docElement ["m2"])) .nil)))) .nil))
      .nil = .ok (.value (.bool false)) := by
  refine ⟨?_, ?_, ?_, ?_, ?_, ?_, ?_, rfl, rfl⟩
  · intro hni
    cases items with
    | nil => simp [OperandList.isNil] at hni
    | cons b tl => simp [evalQuery, OperandList.isNil]
  · intro v h ht
    cases rest with
    | nil => simp [evalAnyItems, h, ht]
    | cons b tl => simp [evalAnyItems, h, ht]
  · intro e h ht
    cases rest with
    | nil => simp [evalAnyItems, h, ht]
    | cons b tl => simp [evalAnyItems, h, ht]
  · intro v b tl hr h ht
    subst hr
    simp [evalAnyItems, h, ht]
  · intro e b tl hr h ht
    subst hr
    simp [evalAnyItems, h, ht]
  · intro v h ht
    simp [evalAnyItems, h, ht]
  · intro e h ht
    simp [evalAnyItems, h, ht]

theorem any_list_semantics_witness :
    evalAnyItems (.cons (.const (.bool true)) .nil) true .nil = .ok (.bool true) ∧
    evalAnyItems (.cons (.query (.docElement ["m"])) .nil) true .nil
      = .error (.missingQueryTarget ⟨["m"], false⟩) ∧
    evalAnyItems (.cons (.query (.docElement ["m"])) .nil) false .nil = .ok (.bool false) := by
  refine ⟨?_, ?_, ?_⟩
  · exact (any_list_semantics (.const (.bool true)) .nil .nil true .nil).2.1 (.bool true) rfl rfl
  · simpa using
      (any_list_semantics (.query (.docElement ["m"])) .nil .nil true .nil).2.2.2.2.2.2.1
        ⟨["m"], false⟩ rfl rfl
  · simpa using
      (any_list_semantics (.query (.docElement ["m"])) .nil .nil false .nil).2.2.2.2.2.2.1
        ⟨["m"], false⟩ rfl rfl

/-- C8 counterexample: the sameness check is not defined on every variant
and does not compare constants purely by structural value.  `hash_query`
has no `FunctionQuery` branch, so even `EXISTS(root_accessor("a"))`
compared with itself raises `NotImplementedError`; a dict constant is
unhashable, so comparing a query against a dict raises `TypeError`; and
since `hash(True) == hash(1)`, the queries `a == True` and `a == 1` are
reported as the same query. -/
theorem is_same_query_function_counterexample :
    is_same_query (.functionQuery .EXISTS (.cons (.operand (.query (.docElement ["a"]))) .nil))
      (.functionQuery .EXISTS (.cons (.operand (.query (.docElement ["a"]))) .nil))
      = .error .notImplementedError ∧
    is_same_query (.twoSided .EQ (.query (.docElement ["a"])) (.const (.dict .nil)))
      (.twoSided .EQ (.query (.docElement ["a"])) (.const (.dict .nil)))
      = .error .typeError ∧
    is_same_query (.twoSided .EQ (.query (.docElement ["a"])) (.const (.bool true)))
      (.twoSided .EQ (.query (.docElement ["a"])) (.const (.int 1)))
      = .ok true :=
  ⟨rfl, rfl, rfl⟩

/-- C8 (amended): the sameness check is equality of the two canonical
hashes (accessors hashing by segment sequence, operators by identity,
constants by host hash, which identifies numerically equal constants such
as `True` and `1`).  It is defined — and reflexive — exactly on the
queries built from path accessors, unary and binary operations and
hashable constants: a function-call node raises `NotImplementedError` and
an unhashable list or dict constant raises `TypeError`. -/
theorem is_same_query_amended (q1 q2 : Query) :
    (q1.hashableQ = true → ∃ h, hash_query (.query q1) = .ok h) ∧
    (∀ h1 h2, hash_query (.query q1) = .ok h1 → hash_query (.query q2) = .ok h2 →
      is_same_query q1 q2 = .ok (QueryHash.beq h1 h2)) ∧
    (q1.hashableQ = true → is_same_query q1 q1 = .ok true) ∧
    (∀ f args, hash_query (.query (.functionQuery f args)) = .error .notImplementedError) ∧
    (∀ l, hash_query (.const (.list l)) = .error .typeError) ∧
    (∀ d, hash_query (.const (.dict d)) = .error .typeError) ∧
    (∀ b, hash_query (.const (.bool b)) = hash_query (.const (.int (if b then 1 else 0)))) := by
  refine ⟨query_hash_total q1, ?_, ?_, fun f args => rfl, fun l => rfl, fun d => rfl,
    fun b => rfl⟩
  · intro h1 h2 e1 e2
    simp [is_same_query, e1, e2]
  · intro hf
    obtain ⟨h, e⟩ := query_hash_total q1 hf
    simp [is_same_query, e, queryHash_beq_refl]

theorem is_same_query_amended_witness :
    (∃ h, hash_query (.query (.oneSided .NOT (.const (.int 5)))) = .ok h) ∧
    is_same_query (.oneSided .NOT (.const (.int 5))) (.oneSided .NOT (.const (.int 5)))
      = .ok true :=
  ⟨(is_same_query_amended (.oneSided .NOT (.const (.int 5)))
      (.oneSided .NOT (.const (.int 5)))).1 rfl,
   (is_same_query_amended (.oneSided .NOT (.const (.int 5)))
      (.oneSided .NOT (.const (.int 5)))).2.2.1 rfl⟩

/-- C9: using an expression as a plain boolean, as a hash key, as an item
container, in a multi-term chained comparison, or with the boolean-xor
operator fails with the distinct `InvalidQueryUsageError` — it never
coerces and never returns a value. -/
theorem invalid_usage_operations (q x : Query) (item : Value) (y z rhs lhs : Operand)
    (o1 o2 : TwoSidedOperator) :
    Query.boolDunder q = .error .invalidQueryUsage ∧
    Query.hashDunder q = .error .invalidQueryUsage ∧
    Query.getitemDunder q item = .error .invalidQueryUsage ∧
    Query.xorDunder q rhs = .error .invalidQueryUsage ∧
    Query.rxorDunder q lhs = .error .invalidQueryUsage ∧
    chainedComparison x o1 y o2 z = .error .invalidQueryUsage :=
  ⟨rfl, rfl, rfl, rfl, rfl, rfl⟩

/-- C10: compiling a top-level `SortingQuery` produces an evaluator whose
result on every document is identical to that of compiling the wrapped
query directly; the ascending/descending flag is never consulted. -/
theorem sorting_query_transparent (q : Query) (b : Bool) (m : Metadata) :
    compile_query (.sorting ⟨q, b⟩) m = compile_query (.query q) m :=
  rfl
